import Mathlib

/-!
Verification of `grr/lib/flows/general/hardware.py`: the `DumpFlashImage`
and `DumpACPITable` flows, shallowly embedded as pure functions from a
workflow state and a response envelope to a list of emitted effects plus
an outcome (normal return, raised `flow.FlowError`, or a Python runtime
error such as an attribute/key error on a missing value).

Each state handler of the two flows is translated directly from the
Python source; the generic flow engine (`flow.GRRFlow`, not part of the
repository sources) is modelled from the spec only where a claim needs
engine-level sequencing, and such definitions are marked
`Modelled from the spec:`.
-/

/-- One response item of the chipsec `DumpFlashImage` client action (and,
reused, one item of the `MultiGetFile` reply stream): a `path` on the
client, an `aff4path` in durable storage, and an optional `logs` list
(`hasattr(response, "logs")` in the source is `logs.isSome` here). -/
structure FlashResponse where
  path : String
  aff4path : String
  logs : Option (List String)
deriving DecidableEq

/-- One response item of the chipsec `DumpACPITable` client action:
mandatory `logs` and a list of ACPI table payloads (each table's bytes
kept opaque as a `String`). -/
structure ACPIResponse where
  logs : List String
  acpi_tables : List String
deriving DecidableEq

/-- The aggregated `responses` object handed to a state handler: success
flag, status text of the failure (when any), the ordered payload items,
and the `request_data` correlation dictionary echoed from the
originating call (modelled as an association list). -/
structure Responses (α : Type) where
  success : Bool
  status : String
  items : List α
  request_data : List (String × String) := []
deriving DecidableEq

/-- `responses.First()`: first payload item, or `None`. -/
def Responses.First (r : Responses α) : Option α :=
  r.items.head?

/-- The `responses` object of the ACPI flow's `TableReceived` handler.
`origin_table_signature` embeds `responses.request.request.payload.table_signature`:
the `table_signature` argument of the originating client call. -/
structure ACPIResponses where
  success : Bool
  status : String
  items : List ACPIResponse
  origin_table_signature : String
deriving DecidableEq

/-- `responses.First()` for the ACPI handler. -/
def ACPIResponses.First (r : ACPIResponses) : Option ACPIResponse :=
  r.items.head?

/-- Arguments of `DumpFlashImage` (`DumpFlashImageArgs` proto). -/
structure DumpFlashImageArgs where
  component_version : String
  log_level : Nat
  chunk_size : Nat
  notify_syslog : Bool
deriving DecidableEq

/-- Arguments of `DumpACPITable` (`DumpACPITableArgs` proto). -/
structure DumpACPITableArgs where
  component_version : String
  logging : Bool
  table_signature_list : List String
deriving DecidableEq

/-- Every externally visible action a handler can take, one constructor
per distinct call/emission site in `hardware.py`. -/
inductive Effect where
  | log (msg : String)
  | callState (next : String)
  | loadComponent (name version next : String)
  | callFlowArtifactCollector (artifact_list : List String)
      (store_results_in_aff4 : Bool) (next : String)
  | callClientDumpFlash (log_level chunk_size : Nat) (notify_syslog : Bool)
      (next : String)
  | callFlowMultiGetFile (pathspecs : List String)
      (request_data : List (String × String)) (next : String)
  | sendReplyFlash (r : FlashResponse)
  | symlinkUpdate (symlink target : String)
  | callClientDeleteTempFiles (path next : String)
  | callClientDumpACPITable (logging : Bool) (table_signature next : String)
  | durableWriteACPITables (key : String) (tables : List String)
  | sendReplyACPITable (table : String)
deriving DecidableEq

/-- Effects that dispatch an asynchronous outbound call (to the client or
to a nested flow). `callState` is the self pseudo-transition, and logs,
replies and durable writes are not calls. -/
def Effect.isOutboundCall : Effect → Bool
  | .loadComponent .. => true
  | .callFlowArtifactCollector .. => true
  | .callClientDumpFlash .. => true
  | .callFlowMultiGetFile .. => true
  | .callClientDeleteTempFiles .. => true
  | .callClientDumpACPITable .. => true
  | _ => false

/-- Log-line effects. -/
def Effect.isLog : Effect → Bool
  | .log _ => true
  | _ => false

/-- The spiflash symbolic-pointer update. -/
def Effect.isSymlinkUpdate : Effect → Bool
  | .symlinkUpdate _ _ => true
  | _ => false

/-- The `MultiGetFile` transfer sub-flow call. -/
def Effect.isMultiGetFileCall : Effect → Bool
  | .callFlowMultiGetFile .. => true
  | _ => false

/-- The `DeleteGRRTempFiles` cleanup client call. -/
def Effect.isDeleteTempFilesCall : Effect → Bool
  | .callClientDeleteTempFiles .. => true
  | _ => false

/-- Durable ACPI table-collection writes. -/
def Effect.isDurableWriteACPI : Effect → Bool
  | .durableWriteACPITables .. => true
  | _ => false

/-- ACPI reply emissions. -/
def Effect.isSendReplyACPI : Effect → Bool
  | .sendReplyACPITable _ => true
  | _ => false

/-- How a handler invocation ended: normal return, a raised
`flow.FlowError` (fatal abort of the instance), or a Python runtime error
(attribute/key access on a missing value). -/
inductive Outcome where
  | ok
  | flowError (msg : String)
  | runtimeError
deriving DecidableEq

/-- The flow's persistent `self.state` bag. A field value `none` means the
attribute was never assigned (`hasattr` is false); `some v` means it was
assigned `v`, where an inner `none` is Python `None`. -/
structure FlashState where
  hardware_info : Option (Option String) := none
  image_path : Option String := none
deriving DecidableEq

/-- Result of running one flash state handler: the updated workflow
state, the effects emitted before returning or raising, and the outcome. -/
structure FlashStep where
  state : FlashState
  effects : List Effect
  outcome : Outcome
deriving DecidableEq

/-- `self.client_id.Add(rel)`: RDFURN path join. -/
def urnAdd (base rel : String) : String :=
  base ++ "/" ++ rel

/-- The log-forwarding loop at the top of `CollectImage`:
`for response in responses: if hasattr(response, "logs"): for log in response.logs: self.Log(log)`. -/
def forwardLogs : List FlashResponse → List Effect
  | [] => []
  | r :: rest =>
      (match r.logs with
        | some ls => ls.map Effect.log
        | none => []) ++ forwardLogs rest

/-- `DumpFlashImage.Start`: load the grr-chipsec component, continuation
`CollectDebugInfo`. -/
def DumpFlashImage.Start (args : DumpFlashImageArgs) : List Effect :=
  [.loadComponent "grr-chipsec-component" args.component_version "CollectDebugInfo"]

/-- `DumpFlashImage.CollectDebugInfo`: ignore the load reply entirely and
call the `ArtifactCollectorFlow` sub-flow, continuation `DumpImage`. -/
def DumpFlashImage.CollectDebugInfo (st : FlashState) (_responses : Responses Unit) :
    FlashStep :=
  { state := st
    effects := [.callFlowArtifactCollector ["LinuxHardwareInfo"] true "DumpImage"]
    outcome := .ok }

/-- `DumpFlashImage.DumpImage`: store `responses.First()` under
`state.hardware_info` (without looking at the success flag) and dispatch
the chipsec `DumpFlashImage` client action, continuation `CollectImage`. -/
def DumpFlashImage.DumpImage (args : DumpFlashImageArgs) (st : FlashState)
    (responses : Responses String) : FlashStep :=
  { state := { st with hardware_info := some responses.First }
    effects := [.callClientDumpFlash args.log_level args.chunk_size
      args.notify_syslog "CollectImage"]
    outcome := .ok }

/-- `DumpFlashImage.CollectImage`: forward response logs; on failure raise
`FlowError("Failed to dump the flash image: …status")`; on an empty path
log and self-transition to `End`; otherwise call `MultiGetFile` with the
path, attaching `request_data={"image_path": path}`. -/
def DumpFlashImage.CollectImage (st : FlashState)
    (responses : Responses FlashResponse) : FlashStep :=
  let fwd := forwardLogs responses.items
  if responses.success = false then
    { state := st, effects := fwd
      outcome := .flowError ("Failed to dump the flash image: " ++ responses.status) }
  else
    match responses.First with
    | none => { state := st, effects := fwd, outcome := .runtimeError }
    | some r =>
      if r.path = "" then
        { state := st
          effects := fwd ++ [.log "No path returned. Skipping host.", .callState "End"]
          outcome := .ok }
      else
        { state := st
          effects := fwd ++ [.callFlowMultiGetFile [r.path]
            [("image_path", r.path)] "DeleteTemporaryImage"]
          outcome := .ok }

/-- `DumpFlashImage.DeleteTemporaryImage`: on transfer failure raise
`FlowError("Unable to collect the flash image: …status")`; on success send
the transferred item as a reply, update the `spiflash` symlink to its
`aff4path`, then dispatch `DeleteGRRTempFiles` on
`responses.request_data["image_path"]`, continuation
`TemporaryImageRemoved` (a missing key or empty reply is a Python runtime
error at the corresponding access). -/
def DumpFlashImage.DeleteTemporaryImage (client_id : String) (st : FlashState)
    (responses : Responses FlashResponse) : FlashStep :=
  if responses.success = false then
    { state := st, effects := []
      outcome := .flowError ("Unable to collect the flash image: " ++ responses.status) }
  else
    match responses.First with
    | none => { state := st, effects := [], outcome := .runtimeError }
    | some r =>
      match responses.request_data.lookup "image_path" with
      | none =>
        { state := st
          effects := [.sendReplyFlash r,
            .symlinkUpdate (urnAdd client_id "spiflash") r.aff4path]
          outcome := .runtimeError }
      | some p =>
        { state := st
          effects := [.sendReplyFlash r,
            .symlinkUpdate (urnAdd client_id "spiflash") r.aff4path,
            .callClientDeleteTempFiles p "TemporaryImageRemoved"]
          outcome := .ok }

/-- `DumpFlashImage.TemporaryImageRemoved`: on failure raise
`FlowError("Unable to delete the temporary flash image: …status")`,
otherwise do nothing. -/
def DumpFlashImage.TemporaryImageRemoved (st : FlashState)
    (responses : Responses FlashResponse) : FlashStep :=
  if responses.success = false then
    { state := st, effects := []
      outcome := .flowError ("Unable to delete the temporary flash image: "
        ++ responses.status) }
  else
    { state := st, effects := [], outcome := .ok }

/-- `DumpFlashImage.End`: log the success line only when the state bag has
an `image_path` attribute (`hasattr(self.state, "image_path")`). -/
def DumpFlashImage.End (st : FlashState) : FlashStep :=
  if st.image_path.isSome then
    { state := st, effects := [.log "Successfully wrote Flash image."], outcome := .ok }
  else
    { state := st, effects := [], outcome := .ok }

/-- `DumpACPITableArgs.Validate`: raise `ValueError("No ACPI table to
dump.")` when `table_signature_list` is empty. -/
def DumpACPITableArgs.Validate (args : DumpACPITableArgs) : Except String Unit :=
  if args.table_signature_list = [] then
    .error "No ACPI table to dump."
  else
    .ok ()

/-- `DumpACPITable.Start`: load the grr-chipsec component, continuation
`StartCollection`. -/
def DumpACPITable.Start (args : DumpACPITableArgs) : List Effect :=
  [.loadComponent "grr-chipsec-component" args.component_version "StartCollection"]

/-- `DumpACPITable.StartCollection`: for each requested signature dispatch
one chipsec `DumpACPITable` client call carrying that signature,
continuation `TableReceived`. -/
def DumpACPITable.StartCollection (args : DumpACPITableArgs) : List Effect :=
  args.table_signature_list.map fun table_signature =>
    .callClientDumpACPITable args.logging table_signature "TableReceived"

/-- The log-forwarding loop at the top of `TableReceived`:
`for response in responses: for log in response.logs: self.Log(log)`. -/
def acpiForwardLogs : List ACPIResponse → List Effect
  | [] => []
  | r :: rest => r.logs.map Effect.log ++ acpiForwardLogs rest

/-- `DumpACPITable.TableReceived`: forward logs; read the originating
signature from the request payload; on failure log the failure naming the
signature and return; on success with non-empty `acpi_tables` log, write
the tables to the per-signature AFF4 collection and send each table as a
reply; on success with empty tables do nothing further. -/
def DumpACPITable.TableReceived (client_id : String) (responses : ACPIResponses) :
    List Effect × Outcome :=
  let fwd := acpiForwardLogs responses.items
  let table_signature := responses.origin_table_signature
  if responses.success = false then
    (fwd ++ [.log ("Error retrieving ACPI table with signature " ++ table_signature)],
     .ok)
  else
    match responses.First with
    | none => (fwd, .runtimeError)
    | some r =>
      if r.acpi_tables = [] then
        (fwd, .ok)
      else
        (fwd ++ [.log ("Retrieved ACPI table(s) with signature " ++ table_signature),
          .durableWriteACPITables
            (urnAdd client_id ("devices/chipsec/acpi/tables/" ++ table_signature))
            r.acpi_tables]
          ++ r.acpi_tables.map Effect.sendReplyACPITable,
         .ok)

/-- Modelled from the spec: the engine's `Start(args)` contract (the
generic `flow.GRRFlow` engine is not among the repository sources) —
arguments are validated before the instance begins; a validation error
aborts creation and no state handler runs, so no call is dispatched. -/
def DumpACPITable.StartInstance (args : DumpACPITableArgs) :
    Except String (List Effect) :=
  match args.Validate with
  | .error e => .error e
  | .ok _ => .ok (DumpACPITable.Start args)

/-- Modelled from the spec: each fan-out sibling completes independently
and invokes its continuation once per reply, in reply-arrival order — the
whole ACPI collection phase is the concatenation of the independent
`TableReceived` invocations' effects. -/
def acpiRunAll (client_id : String) : List ACPIResponses → List Effect
  | [] => []
  | env :: rest =>
      (DumpACPITable.TableReceived client_id env).1 ++ acpiRunAll client_id rest

/-- Request data attached to the first `MultiGetFile` call in a list of
effects, used by the engine model to echo correlation data back. -/
def findMultiGetRequestData : List Effect → Option (List (String × String))
  | [] => none
  | .callFlowMultiGetFile _ rd _ :: _ => some rd
  | _ :: rest => findMultiGetRequestData rest

/-- Modelled from the spec: one whole run of the flash flow under the
engine contract (engine code is not among the repository sources) —
handlers run in continuation order `Start`, `CollectDebugInfo`,
`DumpImage`, `CollectImage`, then either the self-transition to `End` or
the transfer/cleanup chain; the correlation payload attached to the
`MultiGetFile` call is echoed back unmodified in the transfer reply; a
raised error stops the instance, discarding the remaining replies; `End`
runs at termination. `CollectDebugInfo` and `DumpImage` always return
normally by definition, so only the later handlers' outcomes are
inspected. -/
def flashRun (args : DumpFlashImageArgs) (client_id : String)
    (loadEnv : Responses Unit) (debugEnv : Responses String)
    (dumpEnv transferEnv cleanupEnv : Responses FlashResponse) :
    List Effect × Outcome :=
  let e0 := DumpFlashImage.Start args
  let s1 := DumpFlashImage.CollectDebugInfo {} loadEnv
  let s2 := DumpFlashImage.DumpImage args s1.state debugEnv
  let s3 := DumpFlashImage.CollectImage s2.state dumpEnv
  let acc3 := e0 ++ s1.effects ++ s2.effects ++ s3.effects
  match s3.outcome with
  | .ok =>
    if s3.effects.contains (.callState "End") then
      let s6 := DumpFlashImage.End s3.state
      (acc3 ++ s6.effects, s6.outcome)
    else
      let rd := (findMultiGetRequestData s3.effects).getD []
      let s4 := DumpFlashImage.DeleteTemporaryImage client_id s3.state
        { transferEnv with request_data := rd }
      match s4.outcome with
      | .ok =>
        let s5 := DumpFlashImage.TemporaryImageRemoved s4.state cleanupEnv
        match s5.outcome with
        | .ok =>
          let s6 := DumpFlashImage.End s5.state
          (acc3 ++ s4.effects ++ s5.effects ++ s6.effects, s6.outcome)
        | o => (acc3 ++ s4.effects ++ s5.effects, o)
      | o => (acc3 ++ s4.effects, o)
  | o => (acc3, o)

/-! Helper lemmas about the forwarded-log prefixes. -/

lemma mapLog_all_isLog (ls : List String) :
    (ls.map Effect.log).all Effect.isLog = true := by
  induction ls with
  | nil => rfl
  | cons a t ih => simp [Effect.isLog, ih]

lemma forwardLogs_all_isLog (l : List FlashResponse) :
    (forwardLogs l).all Effect.isLog = true := by
  induction l with
  | nil => rfl
  | cons r rest ih =>
    cases h : r.logs with
    | none => simpa [forwardLogs, h] using ih
    | some ls =>
      simp [forwardLogs, h, List.all_append, ih, mapLog_all_isLog]

lemma acpiForwardLogs_all_isLog (l : List ACPIResponse) :
    (acpiForwardLogs l).all Effect.isLog = true := by
  induction l with
  | nil => rfl
  | cons r rest ih =>
    simp [acpiForwardLogs, List.all_append, ih, mapLog_all_isLog]

lemma all_isLog_countP_zero (l : List Effect) (p : Effect → Bool)
    (hlog : ∀ m, p (Effect.log m) = false) (hall : l.all Effect.isLog = true) :
    l.countP p = 0 := by
  induction l with
  | nil => rfl
  | cons e rest ih =>
    simp only [List.all_cons, Bool.and_eq_true] at hall
    cases e with
    | log m =>
      rw [List.countP_cons]
      simp [hlog m, ih hall.2]
    | callState n => simp [Effect.isLog] at hall
    | loadComponent a b c => simp [Effect.isLog] at hall
    | callFlowArtifactCollector a b c => simp [Effect.isLog] at hall
    | callClientDumpFlash a b c d => simp [Effect.isLog] at hall
    | callFlowMultiGetFile a b c => simp [Effect.isLog] at hall
    | sendReplyFlash r => simp [Effect.isLog] at hall
    | symlinkUpdate a b => simp [Effect.isLog] at hall
    | callClientDeleteTempFiles a b => simp [Effect.isLog] at hall
    | callClientDumpACPITable a b c => simp [Effect.isLog] at hall
    | durableWriteACPITables a b => simp [Effect.isLog] at hall
    | sendReplyACPITable t => simp [Effect.isLog] at hall

lemma all_isLog_contains_false (l : List Effect) (e : Effect)
    (he : Effect.isLog e = false) (hall : l.all Effect.isLog = true) :
    l.contains e = false := by
  induction l with
  | nil => rfl
  | cons a rest ih =>
    simp only [List.all_cons, Bool.and_eq_true] at hall
    have hne : (e == a) = false := by
      rcases Bool.eq_false_or_eq_true (e == a) with h | h
      · exfalso
        have hea : e = a := eq_of_beq h
        rw [← hea, he] at hall
        exact Bool.false_ne_true hall.1
      · exact h
    rw [List.contains_cons, hne, Bool.false_or]
    exact ih hall.2

lemma findMultiGetRequestData_append_of_all_isLog (l rest : List Effect)
    (hall : l.all Effect.isLog = true) :
    findMultiGetRequestData (l ++ rest) = findMultiGetRequestData rest := by
  induction l with
  | nil => rfl
  | cons e t ih =>
    simp only [List.all_cons, Bool.and_eq_true] at hall
    cases e with
    | log m => simpa [findMultiGetRequestData] using ih hall.2
    | callState n => simp [Effect.isLog] at hall
    | loadComponent a b c => simp [Effect.isLog] at hall
    | callFlowArtifactCollector a b c => simp [Effect.isLog] at hall
    | callClientDumpFlash a b c d => simp [Effect.isLog] at hall
    | callFlowMultiGetFile a b c => simp [Effect.isLog] at hall
    | sendReplyFlash r => simp [Effect.isLog] at hall
    | symlinkUpdate a b => simp [Effect.isLog] at hall
    | callClientDeleteTempFiles a b => simp [Effect.isLog] at hall
    | callClientDumpACPITable a b c => simp [Effect.isLog] at hall
    | durableWriteACPITables a b => simp [Effect.isLog] at hall
    | sendReplyACPITable t => simp [Effect.isLog] at hall

lemma contains_append_false (l1 l2 : List Effect) (e : Effect)
    (h1 : l1.contains e = false) (h2 : l2.contains e = false) :
    (l1 ++ l2).contains e = false := by
  induction l1 with
  | nil => simpa using h2
  | cons a t ih =>
    rw [List.contains_cons] at h1
    rcases Bool.or_eq_false_iff.1 h1 with ⟨ha, ht⟩
    rw [List.cons_append, List.contains_cons, ha, Bool.false_or]
    exact ih ht

lemma all_isLog_countP_isLog (l : List Effect)
    (hall : l.all Effect.isLog = true) :
    l.countP Effect.isLog = l.length :=
  List.countP_eq_length.2 (List.all_eq_true.1 hall)

/-- C10: the flash workflow's debug-info phase never inspects the nested
sub-workflow's success flag: `CollectDebugInfo` dispatches the artifact
collector for every reply whatsoever, and `DumpImage` stores
`responses.First()` (possibly absent) under `state.hardware_info`, always
dispatches the hardware dump call with continuation `CollectImage`, and
returns normally — its behaviour is unchanged under any success flag or
status, so a failed debug-info collection never aborts the instance. -/
theorem flash_debug_phase_ignores_success :
    (∀ (st : FlashState) (responses : Responses Unit),
      DumpFlashImage.CollectDebugInfo st responses =
        { state := st
          effects := [.callFlowArtifactCollector ["LinuxHardwareInfo"] true "DumpImage"]
          outcome := .ok }) ∧
    (∀ (args : DumpFlashImageArgs) (st : FlashState) (responses : Responses String),
      DumpFlashImage.DumpImage args st responses =
        { state := { st with hardware_info := some responses.First }
          effects := [.callClientDumpFlash args.log_level args.chunk_size
            args.notify_syslog "CollectImage"]
          outcome := .ok }) ∧
    (∀ (args : DumpFlashImageArgs) (st : FlashState) (responses : Responses String)
        (b : Bool) (s : String),
      DumpFlashImage.DumpImage args st { responses with success := b, status := s } =
        DumpFlashImage.DumpImage args st responses) := by
  refine ⟨fun st responses => rfl, fun args st responses => rfl,
    fun args st responses b s => rfl⟩

/-- C9: starting the ACPI workflow with an empty `table_signature_list`
fails validation with `ValueError("No ACPI table to dump.")`, and under
the engine's validate-before-start contract instance creation aborts with
that error, so no effect is ever dispatched. -/
theorem acpi_empty_signature_list_fails_validation
    (args : DumpACPITableArgs) (h : args.table_signature_list = []) :
    args.Validate = .error "No ACPI table to dump." ∧
    DumpACPITable.StartInstance args = .error "No ACPI table to dump." := by
  constructor
  · simp [DumpACPITableArgs.Validate, h]
  · simp [DumpACPITable.StartInstance, DumpACPITableArgs.Validate, h]

theorem acpi_empty_signature_list_fails_validation_witness :
    ({ component_version := "1.2.3", logging := false,
       table_signature_list := [] } : DumpACPITableArgs).table_signature_list = [] ∧
    ({ component_version := "1.2.3", logging := false,
       table_signature_list := [] } : DumpACPITableArgs).Validate =
      .error "No ACPI table to dump." :=
  ⟨rfl, (acpi_empty_signature_list_fails_validation _ rfl).1⟩

/-- C6: for a signature list with at least one entry, `StartCollection`
dispatches exactly one chipsec `DumpACPITable` client call per signature,
in order, each carrying its own signature and naming `TableReceived` as
continuation. -/
theorem acpi_fanout_one_call_per_signature
    (args : DumpACPITableArgs) (h : 1 ≤ args.table_signature_list.length) :
    (DumpACPITable.StartCollection args).length =
      args.table_signature_list.length ∧
    (∀ i : Nat, (DumpACPITable.StartCollection args)[i]? =
      (args.table_signature_list[i]?).map fun s =>
        .callClientDumpACPITable args.logging s "TableReceived") ∧
    (DumpACPITable.StartCollection args).all Effect.isOutboundCall = true := by
  refine ⟨by simp [DumpACPITable.StartCollection], ?_, ?_⟩
  · intro i
    simp [DumpACPITable.StartCollection]
  · rw [List.all_eq_true]
    intro e he
    rcases List.mem_map.1 he with ⟨s, _, rfl⟩
    rfl

theorem acpi_fanout_one_call_per_signature_witness :
    1 ≤ ({ component_version := "1.2.3", logging := true,
           table_signature_list := ["FACP", "DSDT"] } :
          DumpACPITableArgs).table_signature_list.length ∧
    (DumpACPITable.StartCollection
      { component_version := "1.2.3", logging := true,
        table_signature_list := ["FACP", "DSDT"] }).length =
      ({ component_version := "1.2.3", logging := true,
         table_signature_list := ["FACP", "DSDT"] } :
        DumpACPITableArgs).table_signature_list.length :=
  ⟨by decide,
   (acpi_fanout_one_call_per_signature
     { component_version := "1.2.3", logging := true,
       table_signature_list := ["FACP", "DSDT"] } (by decide)).1⟩

/-- C7: on a failed ACPI fetch reply, `TableReceived` forwards the reply's
logs and emits exactly one further log line naming the signature taken
from the originating request's payload, performs no durable write and no
reply emission, and returns normally (no abort), leaving other fan-out
branches untouched. -/
theorem acpi_table_failure_logs_signature_and_continues
    (client_id : String) (responses : ACPIResponses)
    (h : responses.success = false) :
    DumpACPITable.TableReceived client_id responses =
      (acpiForwardLogs responses.items ++
        [.log ("Error retrieving ACPI table with signature " ++
          responses.origin_table_signature)], .ok) ∧
    ((DumpACPITable.TableReceived client_id responses).1.countP
      Effect.isDurableWriteACPI = 0) ∧
    ((DumpACPITable.TableReceived client_id responses).1.countP
      Effect.isSendReplyACPI = 0) := by
  have heff : DumpACPITable.TableReceived client_id responses =
      (acpiForwardLogs responses.items ++
        [.log ("Error retrieving ACPI table with signature " ++
          responses.origin_table_signature)], .ok) := by
    simp [DumpACPITable.TableReceived, h]
  refine ⟨heff, ?_, ?_⟩
  · rw [heff, List.countP_append,
      all_isLog_countP_zero _ _ (fun m => rfl) (acpiForwardLogs_all_isLog _)]
    rfl
  · rw [heff, List.countP_append,
      all_isLog_countP_zero _ _ (fun m => rfl) (acpiForwardLogs_all_isLog _)]
    rfl

theorem acpi_table_failure_logs_signature_and_continues_witness :
    ({ success := false, status := "chipsec timeout", items := [],
       origin_table_signature := "FACP" } : ACPIResponses).success = false ∧
    DumpACPITable.TableReceived "aff4:/C.1000000000000000"
      { success := false, status := "chipsec timeout", items := [],
        origin_table_signature := "FACP" } =
      ([.log ("Error retrieving ACPI table with signature " ++ "FACP")], .ok) := by
  refine ⟨rfl, ?_⟩
  have h := (acpi_table_failure_logs_signature_and_continues
    "aff4:/C.1000000000000000"
    { success := false, status := "chipsec timeout", items := [],
      origin_table_signature := "FACP" } rfl).1
  simpa [acpiForwardLogs] using h

/-- C1: any `success=false` reply delivered to `CollectImage`,
`DeleteTemporaryImage` or `TemporaryImageRemoved` raises a `FlowError`
whose message is a fixed prefix followed by the reported status text (so
the message contains the status); in the dump-failure case every emitted
effect is a forwarded log line, hence no transfer (or any other) call is
dispatched. -/
theorem flash_failure_replies_abort_with_status
    (client_id : String) (st : FlashState)
    (dumpEnv transferEnv cleanupEnv : Responses FlashResponse)
    (hd : dumpEnv.success = false) (ht : transferEnv.success = false)
    (hc : cleanupEnv.success = false) :
    (DumpFlashImage.CollectImage st dumpEnv).outcome =
      .flowError ("Failed to dump the flash image: " ++ dumpEnv.status) ∧
    (DumpFlashImage.CollectImage st dumpEnv).effects.all Effect.isLog = true ∧
    ((DumpFlashImage.CollectImage st dumpEnv).effects.countP
      Effect.isOutboundCall = 0) ∧
    (DumpFlashImage.DeleteTemporaryImage client_id st transferEnv).outcome =
      .flowError ("Unable to collect the flash image: " ++ transferEnv.status) ∧
    (DumpFlashImage.DeleteTemporaryImage client_id st transferEnv).effects = [] ∧
    (DumpFlashImage.TemporaryImageRemoved st cleanupEnv).outcome =
      .flowError ("Unable to delete the temporary flash image: "
        ++ cleanupEnv.status) := by
  refine ⟨?_, ?_, ?_, ?_, ?_, ?_⟩
  · simp [DumpFlashImage.CollectImage, hd]
  · simp [DumpFlashImage.CollectImage, hd, forwardLogs_all_isLog]
  · simp only [DumpFlashImage.CollectImage, hd]
    exact all_isLog_countP_zero _ _ (fun m => rfl) (forwardLogs_all_isLog _)
  · simp [DumpFlashImage.DeleteTemporaryImage, ht]
  · simp [DumpFlashImage.DeleteTemporaryImage, ht]
  · simp [DumpFlashImage.TemporaryImageRemoved, hc]

theorem flash_failure_replies_abort_with_status_witness :
    ({ success := false, status := "device busy", items := [] } :
      Responses FlashResponse).success = false ∧
    (DumpFlashImage.CollectImage {}
      { success := false, status := "device busy", items := [] }).outcome =
      .flowError ("Failed to dump the flash image: " ++ "device busy") :=
  ⟨rfl,
   (flash_failure_replies_abort_with_status "aff4:/C.1000000000000000" {}
     { success := false, status := "device busy", items := [] }
     { success := false, status := "sha256 mismatch", items := [] }
     { success := false, status := "permission denied", items := [] }
     rfl rfl rfl).1⟩


/-- A concrete successful dump reply with an empty path that carries one
client log line, used to test the empty-path branch of `CollectImage`. -/
def emptyPathReplyWithLog : Responses FlashResponse :=
  { success := true
    status := ""
    items := [{ path := "", aff4path := "", logs := some ["chipsec: platform detected"] }] }

/-- A concrete successful dump reply with an empty path and no client
logs. -/
def emptyPathReplyNoLogs : Responses FlashResponse :=
  { success := true
    status := ""
    items := [{ path := "", aff4path := "", logs := none }] }

/-- C2 counterexample: a dump reply with `success=true`, an empty path and
one attached log line makes `CollectImage` emit two log lines, not
exactly one — the handler forwards the reply's own logs before logging
the "No path returned" line. -/
theorem collectImage_empty_path_two_log_lines :
    emptyPathReplyWithLog.success = true ∧
    emptyPathReplyWithLog.First =
      some { path := "", aff4path := "", logs := some ["chipsec: platform detected"] } ∧
    ¬ ((DumpFlashImage.CollectImage {} emptyPathReplyWithLog).effects.countP
        Effect.isLog = 1) ∧
    (DumpFlashImage.CollectImage {} emptyPathReplyWithLog).effects.countP
      Effect.isLog = 2 := by
  refine ⟨rfl, rfl, ?_, ?_⟩ <;> decide

/-- C2 (amended): for every dump reply with `success=true` and an empty
path, `CollectImage` forwards the reply's own log lines and emits exactly
one further log line (so exactly one in total when the reply carries no
logs), transitions directly to `End` via the self pseudo-call, issues
zero outbound calls, and returns normally; `End` then also returns
normally, so the run is a valid non-error outcome. -/
theorem collectImage_empty_path_completes
    (st : FlashState) (responses : Responses FlashResponse) (r : FlashResponse)
    (hs : responses.success = true) (hf : responses.First = some r)
    (hp : r.path = "") :
    (DumpFlashImage.CollectImage st responses).effects =
      forwardLogs responses.items ++
        [.log "No path returned. Skipping host.", .callState "End"] ∧
    (DumpFlashImage.CollectImage st responses).outcome = .ok ∧
    ((DumpFlashImage.CollectImage st responses).effects.countP
      Effect.isOutboundCall = 0) ∧
    ((DumpFlashImage.CollectImage st responses).effects.countP Effect.isLog =
      (forwardLogs responses.items).length + 1) ∧
    (DumpFlashImage.End st).outcome = .ok := by
  have heff : (DumpFlashImage.CollectImage st responses).effects =
      forwardLogs responses.items ++
        [.log "No path returned. Skipping host.", .callState "End"] := by
    simp [DumpFlashImage.CollectImage, hs, hf, hp]
  refine ⟨heff, ?_, ?_, ?_, ?_⟩
  · simp [DumpFlashImage.CollectImage, hs, hf, hp]
  · rw [heff, List.countP_append,
      all_isLog_countP_zero _ _ (fun m => rfl) (forwardLogs_all_isLog _)]
    rfl
  · rw [heff, List.countP_append,
      all_isLog_countP_isLog _ (forwardLogs_all_isLog _)]
    rfl
  · unfold DumpFlashImage.End
    split <;> rfl

theorem collectImage_empty_path_completes_witness :
    emptyPathReplyNoLogs.success = true ∧
    emptyPathReplyNoLogs.First = some { path := "", aff4path := "", logs := none } ∧
    ({ path := "", aff4path := "", logs := none } : FlashResponse).path = "" ∧
    (DumpFlashImage.CollectImage {} emptyPathReplyNoLogs).effects.countP
      Effect.isLog = 1 := by
  refine ⟨rfl, rfl, rfl, ?_⟩
  have h := (collectImage_empty_path_completes {} emptyPathReplyNoLogs
    { path := "", aff4path := "", logs := none } rfl rfl rfl).2.2.2.1
  simpa [emptyPathReplyNoLogs, forwardLogs] using h

/-- A concrete successful dump reply carrying a non-empty temporary image
path. -/
def dumpReplyWithPath : Responses FlashResponse :=
  { success := true
    status := ""
    items := [{ path := "/tmp/flash4242.img", aff4path := "", logs := none }] }

/-- The transferred item of a concrete successful `MultiGetFile` reply. -/
def transferredItem : FlashResponse :=
  { path := ""
    aff4path := "aff4:/C.1000000000000000/temp/flash4242.img"
    logs := none }

/-- A concrete successful transfer reply whose correlation payload echoes
the `image_path` attached by `CollectImage`. -/
def transferReplyEchoed : Responses FlashResponse :=
  { success := true
    status := ""
    items := [transferredItem]
    request_data := [("image_path", "/tmp/flash4242.img")] }

/-- C4: on a successful dump reply with non-empty path `p`, `CollectImage`
attaches `request_data={"image_path": p}` to the `MultiGetFile` transfer
call; for a successful transfer reply whose correlation payload is echoed
back unmodified, `DeleteTemporaryImage` dispatches the cleanup call
carrying exactly `p`; and on a failed transfer reply it dispatches no
cleanup call at all, so cleanup is dispatched only after a successful
transfer reply. -/
theorem flash_cleanup_carries_dump_path
    (client_id : String) (st : FlashState)
    (dumpEnv transferEnv : Responses FlashResponse) (r : FlashResponse)
    (hs : dumpEnv.success = true) (hf : dumpEnv.First = some r)
    (hp : r.path ≠ "") :
    (DumpFlashImage.CollectImage st dumpEnv).effects =
      forwardLogs dumpEnv.items ++
        [.callFlowMultiGetFile [r.path] [("image_path", r.path)]
          "DeleteTemporaryImage"] ∧
    (∀ rT : FlashResponse,
      transferEnv.success = true → transferEnv.First = some rT →
      transferEnv.request_data = [("image_path", r.path)] →
      (DumpFlashImage.DeleteTemporaryImage client_id st transferEnv).effects =
        [.sendReplyFlash rT,
         .symlinkUpdate (urnAdd client_id "spiflash") rT.aff4path,
         .callClientDeleteTempFiles r.path "TemporaryImageRemoved"]) ∧
    (transferEnv.success = false →
      (DumpFlashImage.DeleteTemporaryImage client_id st transferEnv).effects.countP
        Effect.isDeleteTempFilesCall = 0) := by
  refine ⟨?_, ?_, ?_⟩
  · simp [DumpFlashImage.CollectImage, hs, hf, hp]
  · intro rT hts htf hrd
    simp [DumpFlashImage.DeleteTemporaryImage, hts, htf, hrd, List.lookup]
  · intro hts
    simp [DumpFlashImage.DeleteTemporaryImage, hts]

theorem flash_cleanup_carries_dump_path_witness :
    dumpReplyWithPath.success = true ∧
    dumpReplyWithPath.First =
      some { path := "/tmp/flash4242.img", aff4path := "", logs := none } ∧
    transferReplyEchoed.request_data = [("image_path", "/tmp/flash4242.img")] ∧
    (DumpFlashImage.DeleteTemporaryImage "aff4:/C.1000000000000000" {}
      transferReplyEchoed).effects =
      [.sendReplyFlash transferredItem,
       .symlinkUpdate (urnAdd "aff4:/C.1000000000000000" "spiflash")
         transferredItem.aff4path,
       .callClientDeleteTempFiles "/tmp/flash4242.img" "TemporaryImageRemoved"] := by
  refine ⟨rfl, rfl, rfl, ?_⟩
  exact (flash_cleanup_carries_dump_path "aff4:/C.1000000000000000" {}
    dumpReplyWithPath transferReplyEchoed
    { path := "/tmp/flash4242.img", aff4path := "", logs := none }
    rfl rfl (by decide)).2.1 transferredItem rfl rfl rfl


/-- C5: in a flash run whose dump succeeds with a non-empty path and whose
transfer and cleanup replies succeed, the run's effect sequence is exactly
the three setup calls, the forwarded dump logs, the transfer call, and
then — in this order — the reply emission, the single spiflash
symbolic-pointer update, and the cleanup call; hence the pointer update
happens exactly once, strictly after the successful transfer reply was
received (it is produced by the transfer continuation), after the
artifact reply, and before the cleanup call is dispatched. -/
theorem flash_symlink_once_between_reply_and_cleanup
    (args : DumpFlashImageArgs) (client_id : String)
    (loadEnv : Responses Unit) (debugEnv : Responses String)
    (dumpEnv transferEnv cleanupEnv : Responses FlashResponse)
    (rD rT : FlashResponse)
    (hd : dumpEnv.success = true) (hdf : dumpEnv.First = some rD)
    (hp : rD.path ≠ "")
    (ht : transferEnv.success = true) (htf : transferEnv.First = some rT)
    (hc : cleanupEnv.success = true) :
    flashRun args client_id loadEnv debugEnv dumpEnv transferEnv cleanupEnv =
      ([.loadComponent "grr-chipsec-component" args.component_version
          "CollectDebugInfo",
        .callFlowArtifactCollector ["LinuxHardwareInfo"] true "DumpImage",
        .callClientDumpFlash args.log_level args.chunk_size args.notify_syslog
          "CollectImage"]
       ++ forwardLogs dumpEnv.items
       ++ [.callFlowMultiGetFile [rD.path] [("image_path", rD.path)]
             "DeleteTemporaryImage",
           .sendReplyFlash rT,
           .symlinkUpdate (urnAdd client_id "spiflash") rT.aff4path,
           .callClientDeleteTempFiles rD.path "TemporaryImageRemoved"], .ok) ∧
    ((flashRun args client_id loadEnv debugEnv dumpEnv transferEnv
        cleanupEnv).1.countP Effect.isSymlinkUpdate = 1) := by
  have hs3 : DumpFlashImage.CollectImage
      { hardware_info := some debugEnv.First, image_path := none } dumpEnv =
      { state := { hardware_info := some debugEnv.First, image_path := none }
        effects := forwardLogs dumpEnv.items ++
          [.callFlowMultiGetFile [rD.path] [("image_path", rD.path)]
            "DeleteTemporaryImage"]
        outcome := .ok } := by
    simp [DumpFlashImage.CollectImage, hd, hdf, hp]
  have hmemEnd : Effect.callState "End" ∉ forwardLogs dumpEnv.items ++
      [Effect.callFlowMultiGetFile [rD.path] [("image_path", rD.path)]
        "DeleteTemporaryImage"] := by
    intro hmem
    rcases List.mem_append.1 hmem with hIn | hIn
    · have hL := List.all_eq_true.1 (forwardLogs_all_isLog dumpEnv.items) _ hIn
      simp [Effect.isLog] at hL
    · simp at hIn
  have hfind : findMultiGetRequestData (forwardLogs dumpEnv.items ++
      [Effect.callFlowMultiGetFile [rD.path] [("image_path", rD.path)]
        "DeleteTemporaryImage"]) = some [("image_path", rD.path)] := by
    rw [findMultiGetRequestData_append_of_all_isLog _ _ (forwardLogs_all_isLog _)]
    rfl
  have htf2 : transferEnv.items.head? = some rT := htf
  have hs4 : ∀ st : FlashState, DumpFlashImage.DeleteTemporaryImage client_id st
      { transferEnv with request_data := [("image_path", rD.path)] } =
      { state := st
        effects := [.sendReplyFlash rT,
          .symlinkUpdate (urnAdd client_id "spiflash") rT.aff4path,
          .callClientDeleteTempFiles rD.path "TemporaryImageRemoved"]
        outcome := .ok } := by
    intro st
    simp [DumpFlashImage.DeleteTemporaryImage, Responses.First, ht, htf2,
      List.lookup]
  have hs5 : ∀ st : FlashState,
      DumpFlashImage.TemporaryImageRemoved st cleanupEnv =
      { state := st, effects := [], outcome := .ok } := by
    intro st
    simp [DumpFlashImage.TemporaryImageRemoved, hc]
  have hfwd0 : (forwardLogs dumpEnv.items).countP Effect.isSymlinkUpdate = 0 :=
    all_isLog_countP_zero _ _ (fun m => rfl) (forwardLogs_all_isLog _)
  have hrun : flashRun args client_id loadEnv debugEnv dumpEnv transferEnv
      cleanupEnv =
      ([.loadComponent "grr-chipsec-component" args.component_version
          "CollectDebugInfo",
        .callFlowArtifactCollector ["LinuxHardwareInfo"] true "DumpImage",
        .callClientDumpFlash args.log_level args.chunk_size args.notify_syslog
          "CollectImage"]
       ++ forwardLogs dumpEnv.items
       ++ [.callFlowMultiGetFile [rD.path] [("image_path", rD.path)]
             "DeleteTemporaryImage",
           .sendReplyFlash rT,
           .symlinkUpdate (urnAdd client_id "spiflash") rT.aff4path,
           .callClientDeleteTempFiles rD.path "TemporaryImageRemoved"], .ok) := by
    unfold flashRun
    simp [DumpFlashImage.Start, DumpFlashImage.CollectDebugInfo,
      DumpFlashImage.DumpImage, DumpFlashImage.End, hs3, hmemEnd, hfind,
      hs4, hs5]
  refine ⟨hrun, ?_⟩
  rw [hrun]
  simp [List.countP_append, List.countP_cons, hfwd0, Effect.isSymlinkUpdate]

/-- Sample flow arguments used by the concrete run evaluations. -/
def sampleArgs : DumpFlashImageArgs :=
  { component_version := "1.2.3", log_level := 1, chunk_size := 4096,
    notify_syslog := false }

/-- A concrete successful component-load reply. -/
def loadOkReply : Responses Unit :=
  { success := true, status := "", items := [] }

/-- A concrete successful debug-info sub-flow reply with one artifact. -/
def debugOkReply : Responses String :=
  { success := true, status := "", items := ["hwinfo"] }

/-- A concrete successful cleanup reply. -/
def cleanupOkReply : Responses FlashResponse :=
  { success := true, status := "", items := [] }

theorem flash_symlink_once_between_reply_and_cleanup_witness :
    dumpReplyWithPath.success = true ∧
    ({ path := "/tmp/flash4242.img", aff4path := "", logs := none } :
      FlashResponse).path ≠ "" ∧
    transferReplyEchoed.success = true ∧
    cleanupOkReply.success = true ∧
    (flashRun sampleArgs "aff4:/C.1000000000000000" loadOkReply debugOkReply
      dumpReplyWithPath transferReplyEchoed cleanupOkReply).1.countP
      Effect.isSymlinkUpdate = 1 :=
  ⟨rfl, by decide, rfl, rfl,
   (flash_symlink_once_between_reply_and_cleanup sampleArgs
     "aff4:/C.1000000000000000" loadOkReply debugOkReply dumpReplyWithPath
     transferReplyEchoed cleanupOkReply
     { path := "/tmp/flash4242.img", aff4path := "", logs := none }
     transferredItem rfl rfl (by decide) rfl rfl rfl).2⟩

/-- C3: evaluation of a fully successful flash run (dump returns a
non-empty path, transfer and cleanup succeed) — the run terminates
normally, yet the effect stream contains no "Successfully wrote Flash
image." log line, and in fact no log line at all: `End`'s success log is
guarded by `hasattr(self.state, "image_path")` and no handler ever
assigns `state.image_path` (`CollectImage` keeps the path in a local
variable and in `request_data` only), so the guard is always false. -/
theorem flash_end_success_log_never_emitted :
    (flashRun sampleArgs "aff4:/C.1000000000000000" loadOkReply debugOkReply
      dumpReplyWithPath transferReplyEchoed cleanupOkReply).2 = .ok ∧
    (flashRun sampleArgs "aff4:/C.1000000000000000" loadOkReply debugOkReply
      dumpReplyWithPath transferReplyEchoed cleanupOkReply).1.contains
      (.log "Successfully wrote Flash image.") = false ∧
    (flashRun sampleArgs "aff4:/C.1000000000000000" loadOkReply debugOkReply
      dumpReplyWithPath transferReplyEchoed cleanupOkReply).1.countP
      Effect.isLog = 0 := by
  refine ⟨?_, ?_, ?_⟩ <;> decide

/-- A concrete failed fetch reply for signature "FACP" (the failed reply
carries no payload at all). -/
def facpFailReply : ACPIResponses :=
  { success := false
    status := "Unable to retrieve the table"
    items := []
    origin_table_signature := "FACP" }

/-- A concrete successful fetch reply carrying one table for "DSDT". -/
def dsdtOkReply : ACPIResponses :=
  { success := true
    status := ""
    items := [{ logs := [], acpi_tables := ["DSDT-table-bytes"] }]
    origin_table_signature := "DSDT" }

/-- C8: for the two-signature run with a "FACP" failure and a "DSDT"
success, each arrival order yields exactly one "FACP" failure log, one
durable write under the "DSDT" key, and one emitted reply item; the two
orders' effect streams are permutations of each other (the per-branch
effects commute, only the interleaving differs). -/
theorem acpi_two_replies_commute :
    acpiRunAll "aff4:/C.1000000000000000" [facpFailReply, dsdtOkReply] =
      [.log ("Error retrieving ACPI table with signature " ++ "FACP"),
       .log ("Retrieved ACPI table(s) with signature " ++ "DSDT"),
       .durableWriteACPITables
         (urnAdd "aff4:/C.1000000000000000"
           ("devices/chipsec/acpi/tables/" ++ "DSDT")) ["DSDT-table-bytes"],
       .sendReplyACPITable "DSDT-table-bytes"] ∧
    acpiRunAll "aff4:/C.1000000000000000" [dsdtOkReply, facpFailReply] =
      [.log ("Retrieved ACPI table(s) with signature " ++ "DSDT"),
       .durableWriteACPITables
         (urnAdd "aff4:/C.1000000000000000"
           ("devices/chipsec/acpi/tables/" ++ "DSDT")) ["DSDT-table-bytes"],
       .sendReplyACPITable "DSDT-table-bytes",
       .log ("Error retrieving ACPI table with signature " ++ "FACP")] ∧
    List.Perm
      (acpiRunAll "aff4:/C.1000000000000000" [facpFailReply, dsdtOkReply])
      (acpiRunAll "aff4:/C.1000000000000000" [dsdtOkReply, facpFailReply]) ∧
    ((acpiRunAll "aff4:/C.1000000000000000" [facpFailReply, dsdtOkReply]).countP
      (fun e => e ==
        .log ("Error retrieving ACPI table with signature " ++ "FACP")) = 1 ∧
     (acpiRunAll "aff4:/C.1000000000000000" [facpFailReply, dsdtOkReply]).countP
      Effect.isDurableWriteACPI = 1 ∧
     (acpiRunAll "aff4:/C.1000000000000000" [facpFailReply, dsdtOkReply]).countP
      Effect.isSendReplyACPI = 1) ∧
    ((acpiRunAll "aff4:/C.1000000000000000" [dsdtOkReply, facpFailReply]).countP
      (fun e => e ==
        .log ("Error retrieving ACPI table with signature " ++ "FACP")) = 1 ∧
     (acpiRunAll "aff4:/C.1000000000000000" [dsdtOkReply, facpFailReply]).countP
      Effect.isDurableWriteACPI = 1 ∧
     (acpiRunAll "aff4:/C.1000000000000000" [dsdtOkReply, facpFailReply]).countP
      Effect.isSendReplyACPI = 1) := by
  refine ⟨rfl, rfl, by decide, ⟨?_, ?_, ?_⟩, ⟨?_, ?_, ?_⟩⟩ <;> decide
